import Mathlib

/-!
Verification development for `src/pubmed_blogger_automation.py`.

The script is a linear pipeline: search PubMed (`search_pubmed`), fetch
metadata (`get_paper_details`), generate a summary (`generate_summary`),
format a post (`create_blog_post`), publish (`post_to_blogger`) and archive
a local copy (`main`).  We shallowly embed each function: network responses
and external-service outcomes become explicit oracle inputs, Python `None`
becomes `Option`, and a Python exception propagating out of a function
becomes `Except.error`.  Python strings are Lean `String`s (both indexed by
code points, so `len`/slicing agree with `String.length`/`List.take` on
`String.data`).
-/

namespace PubmedBlogger

/-- Decidable equality of `Except` values, needed to evaluate concrete
runs by `decide`. -/
instance {ε α : Type} [DecidableEq ε] [DecidableEq α] : DecidableEq (Except ε α) :=
  fun a b =>
  match a, b with
  | .error e, .error f =>
    if h : e = f then .isTrue (congrArg Except.error h)
    else .isFalse (fun k => h (Except.error.inj k))
  | .error _, .ok _ => .isFalse (fun k => Except.noConfusion k)
  | .ok _, .error _ => .isFalse (fun k => Except.noConfusion k)
  | .ok x, .ok y =>
    if h : x = y then .isTrue (congrArg Except.ok h)
    else .isFalse (fun k => h (Except.ok.inj k))

/-- Whitespace characters removed by Python `str.strip()` (ASCII range;
the script only navigates ASCII whitespace). -/
def pyIsSpace (c : Char) : Bool :=
  c = ' ' || c = '\t' || c = '\n' || c = '\x0d' || c = '\x0b' || c = '\x0c'

/-- Python `s.strip()`: drop leading and trailing whitespace. -/
def pyStrip (s : String) : String :=
  String.mk (((s.data.dropWhile pyIsSpace).reverse.dropWhile pyIsSpace).reverse)

/-- Python `s.split(sep)` for a single-character separator, on the
character list: split at every occurrence of `sep`. -/
def pySplitAux (sep : Char) : List Char → List (List Char)
  | [] => [[]]
  | c :: rest =>
    if c = sep then [] :: pySplitAux sep rest
    else
      match pySplitAux sep rest with
      | [] => [[c]]
      | h :: t => (c :: h) :: t

/-- Python `s.split(sep)` for a single-character separator. -/
def pySplit (s : String) (sep : Char) : List String :=
  (pySplitAux sep s.data).map String.mk

/-- Python f-string conversion of a value that is either a string or
`None`: `None` renders as the four characters `"None"`. -/
def pyFStr : Option String → String
  | some s => s
  | none => "None"

/-- Python truthiness of a variable holding a string or `None`:
`None` and the empty string are falsy. -/
def optTruthy : Option String → Bool
  | none => false
  | some s => !(s == "")

/-- Check that every list element is a string (not `None`), as Python
`str.join` requires. -/
def allSome : List (Option String) → Option (List String)
  | [] => some []
  | none :: _ => none
  | some s :: rest => (allSome rest).map (fun l => s :: l)

/-- Python `sep.join(l)`: raises `TypeError` when some element is not a
string (here: is `None`). -/
def pyJoin (sep : String) (l : List (Option String)) : Except String String :=
  match allSome l with
  | none => .error "TypeError"
  | some ss => .ok (String.intercalate sep ss)

/-- Python `s.replace(pat, rep)` for a non-empty pattern. -/
def pyReplace (s pat rep : String) : String :=
  String.intercalate rep (s.splitOn pat)

/-! ## Data model of the XML metadata document

`get_paper_details` accesses the parsed XML only through a fixed set of
`find`/`findall` queries; we embed the document as the results of those
queries.  An element's `.text` is `Option String` (ElementTree yields
`None` for an element with no text). -/

/-- A structural node, reduced to its text content. -/
structure Element where
  text : Option String
  deriving DecidableEq, Repr

/-- An `Author` node: its optional `LastName` and `ForeName` children. -/
structure AuthorElem where
  lastName : Option Element
  foreName : Option Element
  deriving DecidableEq, Repr

/-- The `Article` container node, seen through the queries
`get_paper_details` performs on it. -/
structure ArticleDoc where
  titleElement : Option Element
  abstractParts : List Element
  journalElement : Option Element
  pubDateElements : List Element
  authorElements : List AuthorElem
  deriving DecidableEq, Repr

/-- The dictionary returned by `get_paper_details`.  `title` and `journal`
come straight from `.text` and so may be Python `None`; the other fields
are built by joins / f-strings and are always strings. -/
structure PaperRecord where
  id : String
  title : Option String
  abstract : String
  journal : Option String
  pub_date : String
  authors : String
  pubmed_url : String
  deriving DecidableEq, Repr

/-! ## search_pubmed -/

/-- The body of the esearch HTTP response: either not parseable as JSON
(`response.json()` raises), or parsed, with the optional
`esearchresult` object and its optional `idlist` array. -/
inductive JsonBody
  | malformed
  | parsed (esearchresult : Option (Option (List String)))
  deriving DecidableEq, Repr

/-- `search_pubmed`, lines 22-57: return the first id of the result list,
`None` when the list is empty or the expected keys are missing, and let
the JSON decode error propagate on a malformed body.  (Query assembly and
the HTTP request itself are absorbed into the `body` oracle.) -/
def search_pubmed (body : JsonBody) : Except String (Option String) :=
  match body with
  | .malformed => .error "JSONDecodeError"
  | .parsed esearchresult =>
    match esearchresult with
    | some (some idList) =>
      match idList with
      | [] => .ok none
      | topId :: _ => .ok (some topId)
    | _ => .ok none

/-! ## get_paper_details -/

/-- The list comprehension filter `if e.text` used for abstract segments
and date parts: keep only truthy (non-`None`, non-empty) texts. -/
def truthyTexts (es : List Element) : List String :=
  es.filterMap (fun e =>
    match e.text with
    | some s => if s == "" then none else some s
    | none => none)

/-- One iteration of the author loop, lines 99-105: `none` means the
author is skipped (no `LastName` child); otherwise the value appended to
the list, which is itself a Python value that may be `None`
(surname-only author whose `LastName` has no text). -/
def author_name (a : AuthorElem) : Option (Option String) :=
  match a.lastName, a.foreName with
  | some l, some f => some (some (pyFStr f.text ++ " " ++ pyFStr l.text))
  | some l, none => some l.text
  | none, _ => none

/-- The `authors` list built by the loop, in document order. -/
def authorsList (authorElements : List AuthorElem) : List (Option String) :=
  authorElements.filterMap author_name

/-- Line 107: `", ".join(authors) if authors else "Unknown Authors"`.
The join raises `TypeError` when some appended value is `None`. -/
def author_string (authorElements : List AuthorElem) : Except String String :=
  let authors := authorsList authorElements
  if authors.isEmpty then .ok "Unknown Authors" else pyJoin ", " authors

/-- The dictionary literal of lines 109-117, with the local variables of
lines 82-94 (title, abstract, journal, pub_date) inlined into their
fields; `authors` is the already-joined author string. -/
def build_record (paper_id : String) (a : ArticleDoc) (authors : String) : PaperRecord :=
  { id := paper_id
    title :=
      match a.titleElement with
      | some e => e.text
      | none => some "No title available"
    abstract :=
      if a.abstractParts.isEmpty then "No abstract available"
      else String.intercalate " " (truthyTexts a.abstractParts)
    journal :=
      match a.journalElement with
      | some e => e.text
      | none => some "Unknown Journal"
    pub_date := String.intercalate " " (truthyTexts a.pubDateElements)
    authors := authors
    pubmed_url := "https://pubmed.ncbi.nlm.nih.gov/" ++ paper_id ++ "/" }

/-- `get_paper_details`, lines 59-117.  The HTTP status code and the
parsed document (the `Article` node query result) are oracle inputs.
`.ok none` is Python returning `None`; `.error` is a propagating
exception. -/
def get_paper_details (paper_id : String) (status : Nat)
    (article : Option ArticleDoc) : Except String (Option PaperRecord) :=
  if status ≠ 200 then .ok none
  else
    match article with
    | none => .ok none
    | some a =>
      match author_string a.authorElements with
      | .error e => .error e
      | .ok authors => .ok (some (build_record paper_id a authors))

/-! ## generate_summary -/

/-- `generate_summary`, lines 119-155: any exception from the OpenAI call
is caught and collapsed to `None`; on success the content is stripped.
The service outcome is the oracle input. -/
def generate_summary (serviceResult : Except String String) : Option String :=
  match serviceResult with
  | .error _ => none
  | .ok content => some (pyStrip content)

/-! ## create_blog_post -/

/-- The short headline computation, lines 162-165: first colon-segment of
the title, stripped, hard-truncated to 67 characters plus `"..."` when
longer than 70. -/
def create_short_title (title : String) : String :=
  let short_title := pyStrip ((pySplit title ':').headD "")
  if 70 < short_title.length then String.mk (short_title.data.take 67) ++ "..."
  else short_title

/-- `create_blog_post`, lines 157-177.  `today` (wall-clock date string)
is passed in.  When the record's `title` is Python `None`, the attribute
access `.split` raises `AttributeError`. -/
def create_blog_post (paper_details : PaperRecord) (summary : String)
    (today : String) : Except String String :=
  match paper_details.title with
  | none => .error "AttributeError"
  | some title =>
    let short_title := create_short_title title
    .ok ("# Today's Medical Research: " ++ short_title ++
      "\n\n**Date:** " ++ today ++
      "\n\n## " ++ title ++
      "\n\n" ++ summary ++
      "\n\n**Source:** [" ++ title ++ " (PMID: " ++ paper_details.id ++ ")](" ++
      paper_details.pubmed_url ++ ")\n")

/-! ## post_to_blogger -/

/-- Oracle for the Blogger API client: whether `build(...)` (which
fetches the discovery document over the network) returns or raises, and
whether `request.execute()` returns or raises. -/
structure BloggerApi where
  buildResult : Except String Unit
  executeResult : Except String Unit
  deriving DecidableEq, Repr

/-- What `post_to_blogger` does: its Python return value (`.ok`) or the
exception escaping it (`.error`), plus the number of network requests it
dispatched. -/
structure PublishResult where
  outcome : Except String Bool
  calls : Nat
  deriving DecidableEq, Repr

/-- The post title built at lines 190-191: fixed prefix plus the stripped
first colon-segment of the full title, with no truncation. -/
def blogger_post_title (title : String) : String :=
  "Medical Research Today: " ++ pyStrip ((pySplit title ':').headD "")

/-- `post_to_blogger`, lines 179-210.  Credentials are read from the
environment (`Option String`; absent or empty is falsy).  Note the order
of operations in the source: the credential check returns `False` first;
then the title is split (raises `AttributeError` on a `None` title); then
`build` runs OUTSIDE the `try` block, so its exceptions propagate; only
`request.execute()` is guarded by the `try`/`except`. -/
def post_to_blogger (blog_post : String) (paper_details : PaperRecord)
    (blogger_api_key blog_id : Option String) (api : BloggerApi) : PublishResult :=
  if !(optTruthy blogger_api_key) || !(optTruthy blog_id) then
    { outcome := .ok false, calls := 0 }
  else
    match paper_details.title with
    | none => { outcome := .error "AttributeError", calls := 0 }
    | some title =>
      let _post_title := blogger_post_title title
      let _content := pyReplace blog_post "\n" "<br>"
      match api.buildResult with
      | .error e => { outcome := .error e, calls := 1 }
      | .ok _ =>
        match api.executeResult with
        | .error _ => { outcome := .ok false, calls := 2 }
        | .ok _ => { outcome := .ok true, calls := 2 }

/-! ## main -/

/-- The oracle inputs of one run: the external responses each stage
receives, the wall-clock date, and the environment variables. -/
structure Stages where
  searchBody : JsonBody
  fetchStatus : Nat
  fetchDoc : Option ArticleDoc
  openaiResult : Except String String
  today : String
  bloggerApiKey : Option String
  bloggerBlogId : Option String
  api : BloggerApi
  deriving DecidableEq, Repr

/-- The observable effects of one run of `main`: status lines printed by
`main` itself, the contents written to `latest_blog_post.md` (in order;
the write itself is assumed to succeed — disk faults are unmodelled, as
the script has no policy for them), and an uncaught exception if one
aborted the run. -/
structure RunResult where
  printed : List String
  archive : List String
  fault : Option String
  deriving DecidableEq, Repr

/-- `main`, lines 212-245: the six-stage pipeline.  Stages 1-3 abort the
run early on their failure signals; the archive write at step 6 happens
after `post_to_blogger` has RETURNED, so an exception propagating out of
stage 5 (or an uncaught exception from stages 1-2 or 4) skips it. -/
def main (w : Stages) : RunResult :=
  match search_pubmed w.searchBody with
  | .error e => { printed := [], archive := [], fault := some e }
  | .ok paperIdOpt =>
    if !(optTruthy paperIdOpt) then
      { printed := ["No recent papers found"], archive := [], fault := none }
    else
      let paper_id := paperIdOpt.getD ""
      match get_paper_details paper_id w.fetchStatus w.fetchDoc with
      | .error e => { printed := [], archive := [], fault := some e }
      | .ok none =>
        { printed := ["Could not retrieve details for paper ID: " ++ paper_id]
          archive := [], fault := none }
      | .ok (some paper_details) =>
        let summaryOpt := generate_summary w.openaiResult
        if !(optTruthy summaryOpt) then
          { printed := ["Failed to generate summary"], archive := [], fault := none }
        else
          let summary := summaryOpt.getD ""
          match create_blog_post paper_details summary w.today with
          | .error e => { printed := [], archive := [], fault := some e }
          | .ok blog_post =>
            let pub := post_to_blogger blog_post paper_details
              w.bloggerApiKey w.bloggerBlogId w.api
            match pub.outcome with
            | .error e => { printed := [], archive := [], fault := some e }
            | .ok success =>
              { printed := [if success then "Automation completed successfully"
                  else "Automation completed with errors"]
                archive := [blog_post]
                fault := none }

/-! ## Spec-side notions and concrete documents used in the theorems -/

/-- The substring of `s` strictly before its first colon (all of `s` when
there is none) — the spec's phrase "the substring before the first
colon", stated independently of Python `split`. -/
def beforeFirstColon (s : String) : String :=
  String.mk (s.data.takeWhile (fun c => !(c == ':')))

/-- A record as returned for a fully populated document. -/
def prSample : PaperRecord :=
  { id := "12345", title := some "Drug X Reduces Risk: A Trial"
    abstract := "Patients improved.", journal := some "J Med"
    pub_date := "2024 Jan", authors := "Unknown Authors"
    pubmed_url := "https://pubmed.ncbi.nlm.nih.gov/12345/" }

/-- A Blogger API oracle in which both `build` and `execute` return. -/
def apiSample : BloggerApi := { buildResult := .ok (), executeResult := .ok () }

/-- A Blogger API oracle in which `build(...)` raises (for instance the
discovery-document fetch fails with a connection error). -/
def apiBuildFault : BloggerApi :=
  { buildResult := .error "ConnectionError", executeResult := .ok () }

/-- A title whose first colon-segment is 75 characters long. -/
def title75 : String := String.mk (List.replicate 75 'a') ++ ": A Trial"

/-- A minimal article document: title and nothing else present. -/
def docPlain : ArticleDoc :=
  { titleElement := some ⟨some "T"⟩, abstractParts := []
    journalElement := none, pubDateElements := [], authorElements := [] }

/-- The record `get_paper_details` produces from `docPlain` for id `"1"`. -/
def prPlain : PaperRecord :=
  { id := "1", title := some "T", abstract := "No abstract available"
    journal := some "Unknown Journal", pub_date := ""
    authors := "Unknown Authors"
    pubmed_url := "https://pubmed.ncbi.nlm.nih.gov/1/" }

/-- A document whose `ArticleTitle` node exists but carries no text. -/
def docNullTitle : ArticleDoc :=
  { titleElement := some ⟨none⟩, abstractParts := []
    journalElement := some ⟨some "J"⟩, pubDateElements := []
    authorElements := [] }

/-- The record produced from `docNullTitle`: its `title` is Python `None`. -/
def prNullTitle : PaperRecord :=
  { id := "7", title := none, abstract := "No abstract available"
    journal := some "J", pub_date := "", authors := "Unknown Authors"
    pubmed_url := "https://pubmed.ncbi.nlm.nih.gov/7/" }

/-- A document with abstract-segment nodes that all have empty text. -/
def docEmptyAbstract : ArticleDoc :=
  { titleElement := some ⟨some "T"⟩, abstractParts := [⟨none⟩, ⟨some ""⟩]
    journalElement := none, pubDateElements := [], authorElements := [] }

/-- The record produced from `docEmptyAbstract`: its abstract is `""`. -/
def prEmptyAbstract : PaperRecord :=
  { id := "9", title := some "T", abstract := ""
    journal := some "Unknown Journal", pub_date := ""
    authors := "Unknown Authors"
    pubmed_url := "https://pubmed.ncbi.nlm.nih.gov/9/" }

/-- A document with one abstract segment carrying text. -/
def docAbs : ArticleDoc :=
  { titleElement := some ⟨some "T"⟩
    abstractParts := [⟨some "Patients improved."⟩]
    journalElement := none, pubDateElements := [], authorElements := [] }

/-- The record produced from `docAbs` for id `"3"`. -/
def prAbs : PaperRecord :=
  { id := "3", title := some "T", abstract := "Patients improved."
    journal := some "Unknown Journal", pub_date := ""
    authors := "Unknown Authors"
    pubmed_url := "https://pubmed.ncbi.nlm.nih.gov/3/" }

/-- A document with an `Author` whose `LastName` child exists but has no
text and which has no `ForeName` child. -/
def docAuthorBad : ArticleDoc :=
  { titleElement := some ⟨some "T"⟩, abstractParts := [⟨some "A"⟩]
    journalElement := some ⟨some "J"⟩, pubDateElements := []
    authorElements := [⟨some ⟨none⟩, none⟩] }

/-- The record produced in the all-stages-succeed run below. -/
def pdRun : PaperRecord :=
  { id := "12345", title := some "T", abstract := "No abstract available"
    journal := some "Unknown Journal", pub_date := ""
    authors := "Unknown Authors"
    pubmed_url := "https://pubmed.ncbi.nlm.nih.gov/12345/" }

/-- The blog post `create_blog_post` formats from `pdRun`. -/
def blogPostRun : String :=
  "# Today's Medical Research: T\n\n**Date:** June 01, 2024\n\n## T\n\nA summary.\n\n**Source:** [T (PMID: 12345)](https://pubmed.ncbi.nlm.nih.gov/12345/)\n"

/-- Oracle inputs for a run in which every stage succeeds. -/
def stagesOk : Stages :=
  { searchBody := .parsed (some (some ["12345"]))
    fetchStatus := 200
    fetchDoc := some docPlain
    openaiResult := .ok "A summary."
    today := "June 01, 2024"
    bloggerApiKey := some "key"
    bloggerBlogId := some "blog"
    api := apiSample }

/-- The same run except that the Blogger client construction raises. -/
def stagesBuildFault : Stages := { stagesOk with api := apiBuildFault }

/-! ## Helper lemmas -/

theorem pySplitAux_ne_nil (sep : Char) (l : List Char) : pySplitAux sep l ≠ [] := by
  cases l with
  | nil => simp [pySplitAux]
  | cons c rest =>
    simp only [pySplitAux]
    split
    · exact List.cons_ne_nil _ _
    · split
      · exact List.cons_ne_nil _ _
      · exact List.cons_ne_nil _ _

theorem pySplitAux_headD (sep : Char) (l : List Char) :
    (pySplitAux sep l).headD [] = l.takeWhile (fun c => !(c == sep)) := by
  induction l with
  | nil => simp [pySplitAux]
  | cons c rest ih =>
    by_cases h : c = sep
    · simp [pySplitAux, h]
    · cases hps : pySplitAux sep rest with
      | nil => exact absurd hps (pySplitAux_ne_nil sep rest)
      | cons hd tl =>
        rw [hps] at ih
        simp only [List.headD_cons] at ih
        simp [pySplitAux, h, hps, List.takeWhile_cons, ih]

theorem pySplit_headD (s : String) (sep : Char) :
    (pySplit s sep).headD "" = String.mk (s.data.takeWhile (fun c => !(c == sep))) := by
  unfold pySplit
  cases hps : pySplitAux sep s.data with
  | nil => exact absurd hps (pySplitAux_ne_nil sep s.data)
  | cons hd tl =>
    have hh := pySplitAux_headD sep s.data
    rw [hps] at hh
    simp only [List.headD_cons] at hh
    simp [hps, hh]

theorem allSome_map_some (l : List String) : allSome (l.map some) = some l := by
  induction l with
  | nil => rfl
  | cons s rest ih => simp [allSome, ih]

theorem authorsList_surname_only (surnames : List String) :
    authorsList (surnames.map (fun s => ⟨some ⟨some s⟩, none⟩)) = surnames.map some := by
  induction surnames with
  | nil => rfl
  | cons s rest ih =>
    simp only [List.map_cons, authorsList, List.filterMap_cons] at ih ⊢
    rw [show author_name ⟨some ⟨some s⟩, none⟩ = some (some s) from rfl, ih]

theorem get_paper_details_ne_200 (paper_id : String) (status : Nat)
    (article : Option ArticleDoc) (h : status ≠ 200) :
    get_paper_details paper_id status article = .ok none := by
  unfold get_paper_details
  rw [if_pos h]

theorem get_paper_details_200_some (paper_id : String) (a : ArticleDoc) :
    get_paper_details paper_id 200 (some a) =
      (match author_string a.authorElements with
      | .error e => .error e
      | .ok authors => .ok (some (build_record paper_id a authors))) := rfl

/-! ## Claims -/

/-- C5: for every title string containing at least one colon, the short
headline derived by `create_blog_post` equals the substring of the title
before the first colon with surrounding whitespace trimmed, and if that
trimmed segment is longer than 70 characters it is replaced by its first
67 characters followed by `"..."`. -/
theorem c5_short_headline (title : String) (_colon : ':' ∈ title.data) :
    create_short_title title =
      (if 70 < (pyStrip (beforeFirstColon title)).length then
        String.mk ((pyStrip (beforeFirstColon title)).data.take 67) ++ "..."
      else pyStrip (beforeFirstColon title)) := by
  simp only [create_short_title, beforeFirstColon, pySplit_headD]

/-- Witness for C5 at the concrete title `"Drug X Reduces Risk: A Trial"`. -/
theorem c5_short_headline_witness :
    create_short_title "Drug X Reduces Risk: A Trial" =
      (if 70 < (pyStrip (beforeFirstColon "Drug X Reduces Risk: A Trial")).length then
        String.mk ((pyStrip (beforeFirstColon "Drug X Reduces Risk: A Trial")).data.take 67) ++ "..."
      else pyStrip (beforeFirstColon "Drug X Reduces Risk: A Trial")) :=
  c5_short_headline "Drug X Reduces Risk: A Trial" (by decide)

/-- C9: `post_to_blogger` derives the post title as the fixed label
`"Medical Research Today: "` followed by the stripped first colon-segment
of the full title, with no truncation; on a title whose first segment has
75 characters, the published title contains the full segment while the
archived document's headline is ellipsis-truncated to 67 characters plus
`"..."`. -/
theorem c9_publisher_title_untruncated :
    (∀ t : String, blogger_post_title t =
      "Medical Research Today: " ++ pyStrip (beforeFirstColon t)) ∧
    70 < (pyStrip (beforeFirstColon title75)).length ∧
    blogger_post_title title75 =
      "Medical Research Today: " ++ pyStrip (beforeFirstColon title75) ∧
    create_short_title title75 =
      String.mk ((pyStrip (beforeFirstColon title75)).data.take 67) ++ "..." ∧
    create_short_title title75 ≠ pyStrip (beforeFirstColon title75) := by
  refine ⟨?_, by decide, by decide, by decide, by decide⟩
  intro t
  simp only [blogger_post_title, beforeFirstColon, pySplit_headD]

/-- C7: with either publishing credential missing from the environment,
`post_to_blogger` returns `False` immediately, dispatches no network
request, and raises nothing. -/
theorem c7_missing_credentials (blog_post : String) (pd : PaperRecord)
    (key blogId : Option String) (api : BloggerApi)
    (h : key = none ∨ blogId = none) :
    post_to_blogger blog_post pd key blogId api =
      { outcome := .ok false, calls := 0 } := by
  cases h with
  | inl hk => simp [post_to_blogger, hk, optTruthy]
  | inr hb => simp [post_to_blogger, hb, optTruthy]

/-- Witness for C7: a run with the API key absent. -/
theorem c7_missing_credentials_witness :
    post_to_blogger "post" prSample none (some "blog123") apiSample =
      { outcome := .ok false, calls := 0 } :=
  c7_missing_credentials "post" prSample none (some "blog123") apiSample (Or.inl rfl)

/-- C2 counterexample: both credentials present, yet a fault raised by the
API-client construction (`build`, which runs outside the `try` block)
propagates out of `post_to_blogger` instead of being reported as failure. -/
theorem c2_build_fault_propagates :
    (post_to_blogger "post" prSample (some "key") (some "blog") apiBuildFault).outcome =
      .error "ConnectionError" := by decide

/-- C2 amended: with both credentials present, a present title, and the
API-client construction returning normally, `post_to_blogger` always
returns (never raises); a fault raised by the insert-request execution is
caught and reported as `False`.  Faults from the client construction
itself, which runs outside the `try` block, propagate. -/
theorem c2_execute_faults_caught (blog_post : String) (pd : PaperRecord)
    (k b t : String) (api : BloggerApi)
    (hk : k ≠ "") (hb : b ≠ "") (ht : pd.title = some t)
    (hbuild : api.buildResult = .ok ()) :
    (post_to_blogger blog_post pd (some k) (some b) api).outcome =
      (match api.executeResult with
      | .error _ => .ok false
      | .ok _ => (.ok true : Except String Bool)) := by
  cases hex : api.executeResult with
  | error e => simp [post_to_blogger, optTruthy, hk, hb, ht, hbuild, hex]
  | ok u => simp [post_to_blogger, optTruthy, hk, hb, ht, hbuild, hex]

/-- Witness for the amended C2 at concrete inputs. -/
theorem c2_execute_faults_caught_witness :
    (post_to_blogger "post" prSample (some "k") (some "b") apiSample).outcome =
      (match apiSample.executeResult with
      | .error _ => .ok false
      | .ok _ => (.ok true : Except String Bool)) :=
  c2_execute_faults_caught "post" prSample "k" "b" "Drug X Reduces Risk: A Trial"
    apiSample (by decide) (by decide) rfl rfl

/-- C6 counterexample: on a malformed body `search_pubmed` propagates the
JSON decode fault; it does not return the no-results signal. -/
theorem c6_malformed_raises :
    search_pubmed JsonBody.malformed = .error "JSONDecodeError" ∧
      search_pubmed JsonBody.malformed ≠ .ok none := by decide

/-- C6 amended: a malformed search-response body makes the JSON decode
fault propagate unhandled out of `search_pubmed`, unlike an empty result
list, which yields the no-results signal; every parseable body yields a
returned value. -/
theorem c6_amended_behavior :
    search_pubmed JsonBody.malformed = .error "JSONDecodeError" ∧
      search_pubmed (JsonBody.parsed (some (some []))) = .ok none ∧
      ∀ esr, ∃ r, search_pubmed (JsonBody.parsed esr) = .ok r := by
  refine ⟨rfl, rfl, ?_⟩
  intro esr
  match esr with
  | none => exact ⟨none, rfl⟩
  | some none => exact ⟨none, rfl⟩
  | some (some []) => exact ⟨none, rfl⟩
  | some (some (x :: _)) => exact ⟨some x, rfl⟩

/-- C10: on a document containing an `Author` node whose `LastName` child
has absent text and which has no `ForeName` child, `get_paper_details`
raises `TypeError` while joining the author list, rather than returning a
record or the not-found signal. -/
theorem c10_join_type_error :
    get_paper_details "11111" 200 (some docAuthorBad) = .error "TypeError" := by
  decide

/-- C8: the author loop skips authors lacking a surname node, emits
"given-name surname" when both name nodes are present with text, emits
the surname value alone when only the surname node is present, and the
joined string over a list of surname-only authors is the surnames
comma-separated in document order, with the sentinel used when the list
is empty. -/
theorem c8_authors_join :
    (∀ a : AuthorElem, a.lastName = none → author_name a = none) ∧
    (∀ (le fe : Element) (fn ln : String), fe.text = some fn → le.text = some ln →
      author_name ⟨some le, some fe⟩ = some (some (fn ++ " " ++ ln))) ∧
    (∀ le : Element, author_name ⟨some le, none⟩ = some le.text) ∧
    (∀ surnames : List String,
      author_string (surnames.map (fun s => ⟨some ⟨some s⟩, none⟩)) =
        .ok (if surnames.isEmpty then "Unknown Authors"
          else String.intercalate ", " surnames)) := by
  refine ⟨?_, ?_, ?_, ?_⟩
  · intro a h
    cases a with
    | mk ln fn =>
      simp only at h
      subst h
      cases fn <;> rfl
  · intro le fe fn ln hf hl
    simp [author_name, pyFStr, hf, hl]
  · intro le
    rfl
  · intro surnames
    cases surnames with
    | nil => rfl
    | cons s rest =>
      simp only [author_string]
      rw [authorsList_surname_only]
      simp [pyJoin, allSome, allSome_map_some]

/-- Witness for C8: a skipped author with no surname node. -/
theorem c8_authors_join_witness :
    author_name ⟨none, some ⟨some "John"⟩⟩ = none :=
  c8_authors_join.1 ⟨none, some ⟨some "John"⟩⟩ rfl

/-- C3 counterexample: on a document whose `ArticleTitle` node exists but
has no text, `get_paper_details` returns a record whose `title` field is
Python `None`, not a string. -/
theorem c3_null_title_cx :
    get_paper_details "7" 200 (some docNullTitle) = .ok (some prNullTitle) ∧
      prNullTitle.title = none := by decide

/-- C3 amended: whenever `get_paper_details` returns a record, `id` and
`pubmed_url` (and, by their types, `abstract`, `pub_date` and `authors`)
are present strings, but `title` (resp. `journal`) is the null value
exactly when the title (resp. journal) node is present with absent text;
when the node is absent, the sentinel is used. -/
theorem c3_record_fields (paper_id : String) (status : Nat)
    (article : Option ArticleDoc) (pr : PaperRecord)
    (h : get_paper_details paper_id status article = .ok (some pr)) :
    ∃ a, article = some a ∧ pr.id = paper_id ∧
      pr.pubmed_url = "https://pubmed.ncbi.nlm.nih.gov/" ++ paper_id ++ "/" ∧
      (pr.title = none ↔ a.titleElement = some ⟨none⟩) ∧
      (a.titleElement = none → pr.title = some "No title available") ∧
      (pr.journal = none ↔ a.journalElement = some ⟨none⟩) ∧
      (a.journalElement = none → pr.journal = some "Unknown Journal") := by
  by_cases hs : status = 200
  · subst hs
    cases article with
    | none => simp [get_paper_details] at h
    | some a =>
      rw [get_paper_details_200_some] at h
      split at h
      · exact Except.noConfusion h
      · have hrec := Option.some.inj (Except.ok.inj h)
        subst hrec
        refine ⟨a, rfl, rfl, rfl, ?_, ?_, ?_, ?_⟩
        · cases ht : a.titleElement with
          | none => simp [build_record, ht]
          | some e =>
            cases e with
            | mk t =>
              cases t with
              | none => simp [build_record, ht]
              | some s => simp [build_record, ht]
        · intro ht
          simp [build_record, ht]
        · cases hj : a.journalElement with
          | none => simp [build_record, hj]
          | some e =>
            cases e with
            | mk t =>
              cases t with
              | none => simp [build_record, hj]
              | some s => simp [build_record, hj]
        · intro hj
          simp [build_record, hj]
  · rw [get_paper_details_ne_200 paper_id status article hs] at h
    simp at h

/-- Witness for the amended C3 at a concrete document. -/
theorem c3_record_fields_witness :
    ∃ a, (some docPlain) = some a ∧ prPlain.id = "1" ∧
      prPlain.pubmed_url = "https://pubmed.ncbi.nlm.nih.gov/1/" ∧
      (prPlain.title = none ↔ a.titleElement = some ⟨none⟩) ∧
      (a.titleElement = none → prPlain.title = some "No title available") ∧
      (prPlain.journal = none ↔ a.journalElement = some ⟨none⟩) ∧
      (a.journalElement = none → prPlain.journal = some "Unknown Journal") :=
  c3_record_fields "1" 200 (some docPlain) prPlain (by decide)

/-- C4 counterexample: a document with abstract-segment nodes that all
have empty text yields the empty string, not the sentinel. -/
theorem c4_empty_abstract_cx :
    get_paper_details "9" 200 (some docEmptyAbstract) = .ok (some prEmptyAbstract) ∧
      prEmptyAbstract.abstract = "" ∧
      prEmptyAbstract.abstract ≠ "No abstract available" := by decide

/-- C4 amended: the extracted abstract is the space-join of the truthy
segment texts whenever at least one abstract-segment node exists — which
is the empty string, not the sentinel, when all segments have empty
text — and is the sentinel exactly when no abstract-segment node exists
at all. -/
theorem c4_abstract_join (paper_id : String) (status : Nat) (d : ArticleDoc)
    (pr : PaperRecord)
    (h : get_paper_details paper_id status (some d) = .ok (some pr)) :
    pr.abstract = (if d.abstractParts.isEmpty then "No abstract available"
        else String.intercalate " " (truthyTexts d.abstractParts)) ∧
      (¬ d.abstractParts.isEmpty → truthyTexts d.abstractParts = [] →
        pr.abstract = "") := by
  by_cases hs : status = 200
  · subst hs
    rw [get_paper_details_200_some] at h
    split at h
    · exact Except.noConfusion h
    · have hrec := Option.some.inj (Except.ok.inj h)
      subst hrec
      refine ⟨rfl, ?_⟩
      intro h1 h2
      simp [build_record, h1, h2]
      decide
  · rw [get_paper_details_ne_200 paper_id status (some d) hs] at h
    simp at h

/-- Witness for the amended C4 at a document with one non-empty segment. -/
theorem c4_abstract_join_witness :
    prAbs.abstract = (if docAbs.abstractParts.isEmpty then "No abstract available"
        else String.intercalate " " (truthyTexts docAbs.abstractParts)) ∧
      (¬ docAbs.abstractParts.isEmpty → truthyTexts docAbs.abstractParts = [] →
        prAbs.abstract = "") :=
  c4_abstract_join "3" 200 docAbs prAbs (by decide)

/-- C1 counterexample: with stages 1-4 succeeding but the Blogger client
construction raising, the fault propagates out of `main` and the archive
file is never written. -/
theorem c1_publish_fault_skips_archive :
    (main stagesBuildFault).archive = [] ∧
      (main stagesBuildFault).fault = some "ConnectionError" := by decide

/-- C1 amended: for every run in which stages 1-4 succeed and the
publishing stage RETURNS (success or failure alike), the archive is
written exactly once with the blog-post content, the same content in
both cases; a fault raised in the publishing stage instead propagates
and skips the archive write. -/
theorem c1_archive_when_publish_returns (w : Stages)
    (paper_id smry blog_post : String) (pd : PaperRecord) (b : Bool)
    (h1 : search_pubmed w.searchBody = .ok (some paper_id))
    (h2 : paper_id ≠ "")
    (h3 : get_paper_details paper_id w.fetchStatus w.fetchDoc = .ok (some pd))
    (h4 : generate_summary w.openaiResult = some smry)
    (h5 : smry ≠ "")
    (h6 : create_blog_post pd smry w.today = .ok blog_post)
    (h7 : (post_to_blogger blog_post pd w.bloggerApiKey w.bloggerBlogId
      w.api).outcome = .ok b) :
    (main w).archive = [blog_post] ∧ (main w).fault = none := by
  simp [main, h1, h2, h3, h4, h5, h6, h7, optTruthy]

/-- Witness for the amended C1: a fully successful concrete run. -/
theorem c1_archive_when_publish_returns_witness :
    (main stagesOk).archive = [blogPostRun] ∧ (main stagesOk).fault = none :=
  c1_archive_when_publish_returns stagesOk "12345" "A summary." blogPostRun
    pdRun true rfl (by decide) (by decide) (by decide) (by decide) (by decide)
    (by decide)

end PubmedBlogger
